import Mathlib

/-!
Verification development for the face-similarity repository
(`face_embeddings.py`, `database_manager.py`, `config_manager.py`,
`streamlit_app.py`).  The Python code is shallowly embedded: external
collaborators (the dlib face model, the qdrant index service, the file
system) are represented by explicit per-call outcome data, and the
orchestration logic is translated function by function.
-/

/-- Decidable equality for `Except` results, so that concrete runs can be
checked by `decide`. -/
instance {ε α : Type} [DecidableEq ε] [DecidableEq α] :
    DecidableEq (Except ε α) := fun x y =>
  match x, y with
  | Except.ok a, Except.ok b =>
      if h : a = b then isTrue (by rw [h])
      else isFalse (by intro he; cases he; exact h rfl)
  | Except.error a, Except.error b =>
      if h : a = b then isTrue (by rw [h])
      else isFalse (by intro he; cases he; exact h rfl)
  | Except.ok _, Except.error _ => isFalse (by intro he; cases he)
  | Except.error _, Except.ok _ => isFalse (by intro he; cases he)

/-- A face embedding vector (`numpy` 128-float descriptor in the source);
its numeric content is never inspected by the orchestration code, only
routed, so it is modelled as a list of integers. -/
abbrev Embedding := List Int

/-- Outcome of `FaceEmbedder.get_face_embeddings` on one image: either the
call raises (unreadable file, bad type, detector exception) or it returns
the list of face embeddings found (empty when no face was detected). -/
inductive ImageOutcome where
  | ok (faces : List Embedding)
  | err (msg : String)
deriving DecidableEq, Repr

/-- The `stats` sub-dictionary of a batch result. -/
structure BatchStats where
  processed : Nat
  failed : Nat
deriving DecidableEq, Repr

/-- The dictionary returned by `FaceEmbedder.process_image_folder`. -/
structure BatchResult where
  embeddings : List Embedding
  filenames : List String
  errors : List (String × String)
  stats : BatchStats
deriving DecidableEq, Repr

/-- The initial `results` dictionary of `process_image_folder`. -/
def batchInit : BatchResult := ⟨[], [], [], ⟨0, 0⟩⟩

/-- ASCII lower-casing of one character (filenames here are ASCII;
Python's `str.lower` agrees on them). -/
def toLowerChar (c : Char) : Char :=
  if 65 ≤ c.toNat && c.toNat ≤ 90 then Char.ofNat (c.toNat + 32) else c

/-- Does the first character list start with the second? -/
def startsWithList : List Char → List Char → Bool
  | _, [] => true
  | [], _ :: _ => false
  | c :: cs, p :: ps => c == p && startsWithList cs ps

/-- Does the first character list end with the second? -/
def endsWithList (s pat : List Char) : Bool :=
  startsWithList s.reverse pat.reverse

/-- `filename.lower().endswith(('.png', '.jpg', '.jpeg'))` from
`process_image_folder`. -/
def hasImageExt (s : String) : Bool :=
  let l := s.data.map toLowerChar
  endsWithList l ".png".data || endsWithList l ".jpg".data ||
    endsWithList l ".jpeg".data

/-- One iteration of the `for filename in os.listdir(folder_path)` loop of
`process_image_folder`: files without a recognized image extension are
skipped; a raising `get_face_embeddings` call appends its message to
`errors` and bumps `stats.failed`; an empty face list appends a
"No faces detected" error and bumps `stats.failed`; a non-empty face list
extends `embeddings` with the faces, extends `filenames` with the filename
repeated once per face, and bumps `stats.processed`. -/
def stepFile (acc : BatchResult) (f : String × ImageOutcome) : BatchResult :=
  if hasImageExt f.1 then
    match f.2 with
    | ImageOutcome.ok embs =>
      if embs.isEmpty then
        { acc with errors := acc.errors ++ [(f.1, "No faces detected")],
                   stats := ⟨acc.stats.processed, acc.stats.failed + 1⟩ }
      else
        { acc with embeddings := acc.embeddings ++ embs,
                   filenames := acc.filenames ++ List.replicate embs.length f.1,
                   stats := ⟨acc.stats.processed + 1, acc.stats.failed⟩ }
    | ImageOutcome.err msg =>
        { acc with errors := acc.errors ++ [(f.1, msg)],
                   stats := ⟨acc.stats.processed, acc.stats.failed + 1⟩ }
  else acc

/-- `FaceEmbedder.process_image_folder`.  A folder is `none` when
`os.path.exists(folder_path)` is false (the source raises
`FileNotFoundError`, modelled as `Except.error`); otherwise it is the
directory listing paired with each file's `get_face_embeddings` outcome. -/
def process_image_folder (folder : Option (List (String × ImageOutcome))) :
    Except String BatchResult :=
  match folder with
  | none => Except.error "Folder not found"
  | some files => Except.ok (files.foldl stepFile batchInit)

/-- The files of the listing that pass the extension filter. -/
def imageFiles (files : List (String × ImageOutcome)) :
    List (String × ImageOutcome) :=
  files.filter (fun f => hasImageExt f.1)

/-- The embeddings a file contributes: the detected faces when
`get_face_embeddings` succeeded, nothing when it raised. -/
def fileFaces : String × ImageOutcome → List Embedding
  | (_, ImageOutcome.ok faces) => faces
  | (_, ImageOutcome.err _) => []

/-- A file counts as processed when it yielded at least one embedding. -/
def fileSucceeds (f : String × ImageOutcome) : Bool :=
  !(fileFaces f).isEmpty

/-- The error entry a file contributes, if any. -/
def fileError : String × ImageOutcome → Option (String × String)
  | (name, ImageOutcome.err msg) => some (name, msg)
  | (name, ImageOutcome.ok faces) =>
      if faces.isEmpty then some (name, "No faces detected") else none

/-! ### The configuration document (`config.json`) -/

/-- The `settings` sub-dictionary of the deployment entry. -/
structure DeploymentSettings where
  url : String
  api_key : String
  port : Option Nat
deriving DecidableEq, Repr

/-- The `deployment` entry of the configuration document. -/
structure Deployment where
  type : String
  settings : DeploymentSettings
deriving DecidableEq, Repr

/-- A value stored under one top-level key of the JSON configuration
document: `process_folder` writes bare collection-name strings, the other
two keys hold the deployment block and the folder-to-collection
sub-dictionary. -/
inductive ConfigValue where
  | str (s : String)
  | deployment (d : Deployment)
  | collections (m : List (String × String))
deriving DecidableEq, Repr

/-- The configuration document as a Python dict: an insertion-ordered
association list with unique keys. -/
abbrev Config := List (String × ConfigValue)

/-- Dict lookup (`d.get(k)` / `d[k]`). -/
def dictGet (cfg : Config) (k : String) : Option ConfigValue :=
  match cfg with
  | [] => none
  | (k', v) :: rest => if k' = k then some v else dictGet rest k

/-- Dict assignment `d[k] = v`: replaces in place when the key exists,
appends otherwise (Python dicts preserve insertion order). -/
def dictSet (cfg : Config) (k : String) (v : ConfigValue) : Config :=
  match cfg with
  | [] => [(k, v)]
  | (k', v') :: rest =>
      if k' = k then (k, v) :: rest else (k', v') :: dictSet rest k v

/-- Lookup in a string-to-string sub-dictionary (`m.get(k)`). -/
def lookupStr (m : List (String × String)) (k : String) : Option String :=
  match m with
  | [] => none
  | (k', v) :: rest => if k' = k then some v else lookupStr rest k

/-- Assignment in a string-to-string sub-dictionary (`m[k] = v`). -/
def setStr (m : List (String × String)) (k v : String) :
    List (String × String) :=
  match m with
  | [] => [(k, v)]
  | (k', v') :: rest =>
      if k' = k then (k, v) :: rest else (k', v') :: setStr rest k v

/-- The default document built by `ConfigManager._load_config` when no
config file exists. -/
def defaultConfig : Config :=
  [("deployment", ConfigValue.deployment ⟨"", ⟨"", "", some 6333⟩⟩),
   ("collections", ConfigValue.collections [])]

/-- `ConfigManager.get_collection_name`: reads
`self.config["collections"].get(folder_path)`.  When the document has no
well-formed `"collections"` entry the source would raise; no state reached
in this development lacks it, and the model then answers `none`. -/
def get_collection_name (cfg : Config) (folder_path : String) :
    Option String :=
  match dictGet cfg "collections" with
  | some (ConfigValue.collections m) => lookupStr m folder_path
  | _ => none

/-- `ConfigManager.update_collection_mapping`: writes
`self.config["collections"][folder_path] = collection_name` and saves. -/
def update_collection_mapping (cfg : Config) (folder_path : String)
    (collection_name : String) : Config :=
  match dictGet cfg "collections" with
  | some (ConfigValue.collections m) =>
      dictSet cfg "collections"
        (ConfigValue.collections (setStr m folder_path collection_name))
  | _ => cfg

/-- State of the persisted `config.json` file as seen by the two loaders:
absent, present but not valid JSON, or present with parsed content. -/
inductive FileState where
  | absent
  | unparseable
  | parsed (cfg : Config)

/-- `ConfigManager._load_config`: returns the parsed file when it exists,
the structured default when it does not; a `json.load` parse failure
propagates to the caller (modelled as `Except.error`). -/
def ConfigManager_load_config (fs : FileState) : Except String Config :=
  match fs with
  | FileState.absent => Except.ok defaultConfig
  | FileState.unparseable => Except.error "JSONDecodeError"
  | FileState.parsed cfg => Except.ok cfg

/-- `DatabaseManager.load_config`: returns `{}` when the file is absent;
its `try/except` catches every exception (a parse failure included), logs
it, and returns `{}` — it never raises. -/
def DatabaseManager_load_config (fs : FileState) : Except String Config :=
  match fs with
  | FileState.absent => Except.ok []
  | FileState.unparseable => Except.ok []
  | FileState.parsed cfg => Except.ok cfg

/-! ### The vector index service (`database_manager.py`) -/

/-- Does `pat` occur contiguously inside the haystack? -/
def containsList (pat : List Char) : List Char → Bool
  | [] => startsWithList [] pat
  | c :: cs => startsWithList (c :: cs) pat || containsList pat cs

/-- Python's `pat in s` substring test on strings. -/
def strContains (s pat : String) : Bool :=
  containsList pat.data s.data

/-- Outcome of the `self.client.create_collection` round-trip inside
`DatabaseManager.create_collection`: the call succeeds, raises
`UnexpectedResponse` with some message, or raises some other exception. -/
inductive CreateCallResult where
  | success
  | unexpectedResponse (msg : String)
  | otherException (msg : String)
deriving DecidableEq, Repr

/-- `DatabaseManager.create_collection`: returns the string "Success" on a
successful service call; an `UnexpectedResponse` whose message contains
"already exists" is caught and normalized to the string
"Collection already exists"; every other exception is re-raised
(modelled as `Except.error`). -/
def create_collection (call : CreateCallResult) : Except String String :=
  match call with
  | CreateCallResult.success => Except.ok "Success"
  | CreateCallResult.unexpectedResponse msg =>
      if strContains msg "already exists" then
        Except.ok "Collection already exists"
      else Except.error msg
  | CreateCallResult.otherException msg => Except.error msg

/-- A record held by the vector index: collection name, vector, and the
payload filename (the point id is a fresh uuid, so every upsert adds a
new record). -/
abbrev IndexRecord := String × Embedding × String

/-- Observable state of the qdrant index: the collections created so far
and the records upserted so far, in order. -/
structure IndexState where
  collections : List String
  records : List IndexRecord
deriving DecidableEq, Repr

/-- An index with no collections and no records. -/
def emptyIndex : IndexState := ⟨[], []⟩

/-- Effect of the `create_collection` service call on the index: a fresh
collection is added only when the call succeeded. -/
def applyCreate (idx : IndexState) (name : String)
    (call : CreateCallResult) : IndexState :=
  match call with
  | CreateCallResult.success =>
      { idx with collections := idx.collections ++ [name] }
  | _ => idx

/-- The `results` dictionary built by `DatabaseManager.store_embeddings`. -/
structure StoreResults where
  success_count : Nat
  error_count : Nat
  errors : List (String × String)
deriving DecidableEq, Repr

/-- Events observable at the index-service and config-store boundary,
used to state ordering properties of one run. -/
inductive Event where
  | create (name : String) (call : CreateCallResult)
  | upsert (collection : String) (vector : Embedding) (payload : String)
      (ok : Bool)
  | mapUpdate (folder : String) (collection : String)
  | searchQuery (collection : String) (vector : Embedding) (limit : Nat)
deriving DecidableEq, Repr

/-- The `for embedding, filename in zip(embeddings, filenames)` loop of
`store_embeddings`.  `ok j` tells whether the service upsert for the
`j`-th pair succeeds; a failing upsert is caught in the per-item
`try/except`, counted, and recorded (its message abstracted to
"store error"), and the loop continues with the remaining pairs. -/
def storeLoop (coll : String) (ok : Nat → Bool) (i : Nat) :
    List (Embedding × String) → StoreResults × List IndexRecord × List Event
  | [] => (⟨0, 0, []⟩, [], [])
  | (e, fn) :: rest =>
      let r := storeLoop coll ok (i + 1) rest
      if ok i then
        ({ r.1 with success_count := r.1.success_count + 1 },
         (coll, e, fn) :: r.2.1,
         Event.upsert coll e fn true :: r.2.2)
      else
        ({ r.1 with error_count := r.1.error_count + 1,
                    errors := (fn, "store error") :: r.1.errors },
         r.2.1,
         Event.upsert coll e fn false :: r.2.2)

/-- `DatabaseManager.store_embeddings`: one upsert call per
`(embedding, filename)` pair, each with a fresh uuid point id; successful
upserts append records to the collection. -/
def store_embeddings (coll : String) (embeddings : List Embedding)
    (filenames : List String) (ok : Nat → Bool) (idx : IndexState) :
    StoreResults × IndexState × List Event :=
  let r := storeLoop coll ok 0 (embeddings.zip filenames)
  (r.1, { idx with records := idx.records ++ r.2.1 }, r.2.2)

/-- The records of one collection, i.e. the candidate set a
nearest-neighbor query on that collection ranks and truncates. -/
def candidates (idx : IndexState) (coll : String) : List IndexRecord :=
  idx.records.filter (fun r => r.1 == coll)

/-- `DatabaseManager.search_similar_faces`: forwards the collection name,
query vector, and `limit` to `self.client.search` unchanged and returns
the hit payloads.  The service's similarity ranking is abstracted: the
model returns the payloads of the whole candidate set, of which the
service would return the `limit` nearest. -/
def search_similar_faces (idx : IndexState) (coll : String)
    (query_vector : Embedding) (limit : Nat) : List String × Event :=
  ((candidates idx coll).map (fun r => r.2.2),
   Event.searchQuery coll query_vector limit)

/-! ### Timestamps and the ingestion pipeline (`streamlit_app.py`) -/

/-- A Python `datetime.datetime` value as returned by `datetime.now()`:
calendar fields down to microseconds. -/
structure PyDateTime where
  year : Nat
  month : Nat
  day : Nat
  hour : Nat
  minute : Nat
  second : Nat
  microsecond : Nat
deriving DecidableEq, Repr

/-- Field ranges `datetime` guarantees (years capped at 9999). -/
def PyDateTime.valid (t : PyDateTime) : Prop :=
  1 ≤ t.year ∧ t.year ≤ 9999 ∧ 1 ≤ t.month ∧ t.month ≤ 12 ∧
  1 ≤ t.day ∧ t.day ≤ 31 ∧ t.hour ≤ 23 ∧ t.minute ≤ 59 ∧
  t.second ≤ 59 ∧ t.microsecond ≤ 999999

instance (t : PyDateTime) : Decidable t.valid := by
  unfold PyDateTime.valid; infer_instance

/-- The calendar fields down to seconds only — exactly the information
`strftime` keeps. -/
def PyDateTime.secondKey (t : PyDateTime) : Nat × Nat × Nat × Nat × Nat × Nat :=
  (t.year, t.month, t.day, t.hour, t.minute, t.second)

/-- A lexicographic linearization of a datetime in microseconds (using
uniform field widths), strictly monotone in every field over the valid
ranges; used only to say one instant is later than another. -/
def PyDateTime.toMicro (t : PyDateTime) : Nat :=
  (((((t.year * 13 + t.month) * 32 + t.day) * 24 + t.hour) * 60
      + t.minute) * 60 + t.second) * 1000000 + t.microsecond

/-- The decimal digit character of `n % 10`. -/
def digitChar (n : Nat) : Char := Char.ofNat (48 + n % 10)

/-- The last `w` decimal digits of `n` as characters (zero-padded
fixed-width decimal rendering for `n < 10 ^ w`). -/
def padDigits : Nat → Nat → List Char
  | 0, _ => []
  | w + 1, n => padDigits w (n / 10) ++ [digitChar n]

/-- `datetime.now().strftime("%Y%m%d%H%M%S")` from `process_folder`:
four-digit year then two digits for each remaining field; microseconds
are dropped. -/
def strftimeYmdHMS (t : PyDateTime) : String :=
  String.mk (padDigits 4 t.year ++ padDigits 2 t.month ++ padDigits 2 t.day
    ++ padDigits 2 t.hour ++ padDigits 2 t.minute ++ padDigits 2 t.second)

/-- One invocation of `process_folder` in `streamlit_app.py`: the folder
listing with each file's embedding outcome (`none` when the folder does
not exist), the folder path string, the wall clock at the run, the
outcome of the collection-creation service call, and which upserts the
service accepts. -/
structure PipelineEnv where
  folderPath : String
  folder : Option (List (String × ImageOutcome))
  now : PyDateTime
  createCall : CreateCallResult
  upsertOk : Nat → Bool

/-- The dictionary `process_folder` returns: a success record or an error
message. -/
inductive PipelineResult where
  | success (collection_name : String) (processed failed stored store_errors : Nat)
  | error (message : String)
deriving DecidableEq, Repr

/-- `process_folder` from `streamlit_app.py`, with the persisted config
document and the index state threaded explicitly.  Steps in source order:
run `process_image_folder` (its `FileNotFoundError` is caught by the
enclosing `try/except` and reported); derive the collection name from the
current time; call `create_collection` (a raise is likewise caught and
reported); abort with the status message whenever the status is not
"Success"; when embeddings exist, store them all and only then write
`config[folder_path] = collection_name` through
`load_config`/`save_config`; with no embeddings, report
"No embeddings generated" without storing or touching the mapping. -/
def process_folder (env : PipelineEnv) (cfg : Config) (idx : IndexState) :
    PipelineResult × Config × IndexState × List Event :=
  match process_image_folder env.folder with
  | Except.error msg => (PipelineResult.error msg, cfg, idx, [])
  | Except.ok br =>
    let name := strftimeYmdHMS env.now
    let idx1 := applyCreate idx name env.createCall
    let ev0 := [Event.create name env.createCall]
    match create_collection env.createCall with
    | Except.error msg => (PipelineResult.error msg, cfg, idx1, ev0)
    | Except.ok status =>
      if status = "Success" then
        if br.embeddings.isEmpty then
          (PipelineResult.error "No embeddings generated", cfg, idx1, ev0)
        else
          let r := store_embeddings name br.embeddings br.filenames
            env.upsertOk idx1
          let cfg2 := dictSet cfg env.folderPath (ConfigValue.str name)
          (PipelineResult.success name br.stats.processed br.stats.failed
             r.1.success_count r.1.error_count,
           cfg2, r.2.1,
           ev0 ++ r.2.2 ++ [Event.mapUpdate env.folderPath name])
      else (PipelineResult.error status, cfg, idx1, ev0)

/-- One click of the Search button in `main`: the query image's
`get_face_embeddings` result, the uploaded file's name, and the slider
value. -/
structure SearchEnv where
  faces : List Embedding
  uploadedName : String
  limit : Nat
  upsertOk : Nat → Bool

/-- Outcome of a search interaction: either the warning "No faces
detected in the uploaded image", or the hit payloads. -/
inductive SearchOutcome where
  | noFace
  | results (payloads : List String)
deriving DecidableEq, Repr

/-- The Search-button handler in `main`: when the query image yields no
face, warn and stop; otherwise first `store_embeddings` the first face
under the uploaded file's name into the selected collection, then run
`search_similar_faces` on that collection with the slider's limit. -/
def searchButton (env : SearchEnv) (selected : String) (idx : IndexState) :
    SearchOutcome × IndexState × List Event :=
  match env.faces with
  | [] => (SearchOutcome.noFace, idx, [])
  | f :: _ =>
      let r := store_embeddings selected [f] [env.uploadedName]
        env.upsertOk idx
      let s := search_similar_faces r.2.1 selected f env.limit
      (SearchOutcome.results s.1, r.2.1, r.2.2 ++ [s.2])

/-! ### Concrete fixtures used by witnesses and counterexamples -/

/-- A concrete run instant: 2024-01-01 12:00:00.000000. -/
def dt0 : PyDateTime := ⟨2024, 1, 1, 12, 0, 0, 0⟩

/-- The same wall-clock second half a second later: a strictly later
instant that formats to the same "%Y%m%d%H%M%S" string. -/
def dtHalf : PyDateTime := ⟨2024, 1, 1, 12, 0, 0, 500000⟩

/-- An ingestion run over a one-image folder whose image holds exactly one
face; the collection-creation call and the upsert succeed. -/
def sampleEnv : PipelineEnv :=
  { folderPath := "/photos"
    folder := some [("a.jpg", ImageOutcome.ok [[1]])]
    now := dt0
    createCall := CreateCallResult.success
    upsertOk := fun _ => true }

/-- The same run except that the index service reports that the collection
already exists. -/
def alreadyExistsEnv : PipelineEnv :=
  { sampleEnv with
      createCall :=
        CreateCallResult.unexpectedResponse "Collection test already exists" }

/-- A run whose only image yields zero faces. -/
def zeroFaceEnv : PipelineEnv :=
  { sampleEnv with folder := some [("a.jpg", ImageOutcome.ok [])] }

/-- A three-file listing: one single-face image, one zero-face image, and
one non-image file that would hold a face if it were ever processed. -/
def files1 : List (String × ImageOutcome) :=
  [("a.jpg", ImageOutcome.ok [[1]]),
   ("b.png", ImageOutcome.ok []),
   ("zz.txt", ImageOutcome.ok [[9]])]

/-- A listing exercising multi-face images, a raising file, and a skipped
non-image file. -/
def filesMulti : List (String × ImageOutcome) :=
  [("a.jpg", ImageOutcome.ok [[1]]),
   ("c.jpeg", ImageOutcome.ok [[2], [3]]),
   ("d.jpg", ImageOutcome.err "boom"),
   ("nope.txt", ImageOutcome.ok [[7]])]

/-- A search interaction whose query image holds one face and whose slider
limit is far above the spec's supposed maximum of 100. -/
def bigLimitSearchEnv : SearchEnv :=
  { faces := [[1]]
    uploadedName := "query.jpg"
    limit := 500
    upsertOk := fun _ => true }

/-- One second after `dt0`. -/
def dtSec : PyDateTime := ⟨2024, 1, 1, 12, 0, 1, 0⟩

/-- An index already holding one collection from an earlier run. -/
def oneCollIndex : IndexState := ⟨["20231231235959"], []⟩

/-- A search interaction with one query face and a small limit. -/
def searchEnv1 : SearchEnv :=
  { faces := [[5]]
    uploadedName := "q.jpg"
    limit := 3
    upsertOk := fun _ => true }

/-- An index with one collection and one stored record, the state before a
search interaction. -/
def preIndex : IndexState := ⟨["c"], [("c", [1], "a.jpg")]⟩

/-! ### Helper lemmas -/

/-- Event classifier: is this an index upsert? -/
def isUpsertEv : Event → Bool
  | Event.upsert _ _ _ _ => true
  | _ => false

/-- Event classifier: is this a mapping update (config write binding a
folder to a collection)? -/
def isMapUpdateEv : Event → Bool
  | Event.mapUpdate _ _ => true
  | _ => false

/-- Did `get_face_embeddings` return (rather than raise) on this file? -/
def isOkFile : String × ImageOutcome → Bool
  | (_, ImageOutcome.ok _) => true
  | (_, ImageOutcome.err _) => false

/-- Closed form of the `process_image_folder` loop, for an arbitrary
starting accumulator. -/
theorem foldl_stepFile_eq (files : List (String × ImageOutcome))
    (acc : BatchResult) :
    files.foldl stepFile acc =
      { embeddings := acc.embeddings ++ (imageFiles files).flatMap fileFaces,
        filenames := acc.filenames ++
          (imageFiles files).flatMap
            (fun f => List.replicate (fileFaces f).length f.1),
        errors := acc.errors ++ (imageFiles files).filterMap fileError,
        stats := ⟨acc.stats.processed +
                    (imageFiles files).countP fileSucceeds,
                  acc.stats.failed +
                    (imageFiles files).countP (fun f => !fileSucceeds f)⟩ } := by
  induction files generalizing acc with
  | nil => simp [imageFiles]
  | cons f rest ih =>
    rw [List.foldl_cons, ih]
    by_cases hx : hasImageExt f.1
    · rcases f with ⟨name, out⟩
      cases out with
      | ok faces =>
        cases faces with
        | nil =>
          simp [stepFile, hx, imageFiles, fileFaces, fileError,
                fileSucceeds, List.countP_cons]
          omega
        | cons e es =>
          simp [stepFile, hx, imageFiles, fileFaces, fileError,
                fileSucceeds, List.countP_cons]
          omega
      | err msg =>
        simp [stepFile, hx, imageFiles, fileFaces, fileError,
              fileSucceeds, List.countP_cons]
        omega
    · simp [stepFile, hx, imageFiles]

theorem storeLoop_events (coll : String) (ok : Nat → Bool) :
    ∀ (pairs : List (Embedding × String)) (i : Nat),
      (storeLoop coll ok i pairs).2.2 =
        (List.enumFrom i pairs).map
          (fun p => Event.upsert coll p.2.1 p.2.2 (ok p.1)) := by
  intro pairs
  induction pairs with
  | nil => intro i; simp [storeLoop]
  | cons p rest ih =>
    intro i
    rcases p with ⟨e, fn⟩
    by_cases h : ok i
    · simp [storeLoop, h, List.enumFrom_cons, ih]
    · simp [storeLoop, h, List.enumFrom_cons, ih]

theorem storeLoop_records (coll : String) (ok : Nat → Bool) :
    ∀ (pairs : List (Embedding × String)) (i : Nat),
      (storeLoop coll ok i pairs).2.1 =
        (List.enumFrom i pairs).filterMap
          (fun p => if ok p.1 then some (coll, p.2.1, p.2.2) else none) := by
  intro pairs
  induction pairs with
  | nil => intro i; simp [storeLoop]
  | cons p rest ih =>
    intro i
    rcases p with ⟨e, fn⟩
    by_cases h : ok i
    · simp [storeLoop, h, List.enumFrom_cons, ih]
    · simp [storeLoop, h, List.enumFrom_cons, ih]

theorem applyCreate_records (idx : IndexState) (name : String)
    (call : CreateCallResult) : (applyCreate idx name call).records = idx.records := by
  cases call <;> simp [applyCreate]

theorem applyCreate_collections_mem (idx : IndexState) (name : String)
    (call : CreateCallResult) (c : String) (h : c ∈ idx.collections) :
    c ∈ (applyCreate idx name call).collections := by
  cases call <;> simp [applyCreate] <;> try exact Or.inl h
  all_goals exact h

theorem dictGet_dictSet (cfg : Config) (k : String) (v : ConfigValue) :
    dictGet (dictSet cfg k v) k = some v := by
  induction cfg with
  | nil => simp [dictGet, dictSet]
  | cons e rest ih =>
    rcases e with ⟨k', v'⟩
    by_cases h : k' = k
    · simp [dictGet, dictSet, h]
    · simp [dictGet, dictSet, h, ih]

theorem zip_replicate_self {α β : Type} (l : List α) (a : β) :
    l.zip (List.replicate l.length a) = l.map (fun x => (x, a)) := by
  induction l with
  | nil => simp
  | cons x xs ih => simp [List.replicate_succ, ih]

theorem zip_flatMap_aligned (l : List (String × ImageOutcome)) :
    ((l.flatMap fileFaces).zip
      (l.flatMap fun f => List.replicate (fileFaces f).length f.1)) =
      l.flatMap (fun f => (fileFaces f).map (fun e => (e, f.1))) := by
  induction l with
  | nil => simp
  | cons f rest ih =>
    simp only [List.flatMap_cons]
    rw [List.zip_append (by simp), ih, zip_replicate_self]

theorem flatMap_replicate_length (l : List (String × ImageOutcome)) :
    (l.flatMap fun f => List.replicate (fileFaces f).length f.1).length =
      (l.flatMap fileFaces).length := by
  induction l with
  | nil => simp
  | cons f rest ih => simp [ih]

theorem flatMap_length_eq_countP (l : List (String × ImageOutcome))
    (h : ∀ f ∈ l, (fileFaces f).length ≤ 1) :
    (l.flatMap fileFaces).length =
      l.countP (fun f => (fileFaces f).length == 1) := by
  induction l with
  | nil => simp
  | cons f rest ih =>
    have hf := h f (List.mem_cons_self f rest)
    have hrest := ih (fun g hg => h g (List.mem_cons_of_mem f hg))
    simp only [List.flatMap_cons, List.length_append, List.countP_cons, hrest]
    interval_cases hl : (fileFaces f).length <;> simp <;> omega

theorem padDigits_length (w : Nat) : ∀ n : Nat, (padDigits w n).length = w := by
  induction w with
  | zero => intro n; simp [padDigits]
  | succ w ih => intro n; simp [padDigits, ih]

theorem digitChar_inj : ∀ a, a < 10 → ∀ b, b < 10 →
    digitChar a = digitChar b → a = b := by decide

theorem padDigits_inj (w : Nat) : ∀ m, m < 10 ^ w → ∀ n, n < 10 ^ w →
    padDigits w m = padDigits w n → m = n := by
  induction w with
  | zero =>
    intro m hm n hn _
    simp [Nat.pow_zero] at hm hn
    omega
  | succ w ih =>
    intro m hm n hn h
    simp only [padDigits] at h
    have hlen : (padDigits w (m / 10)).length = (padDigits w (n / 10)).length := by
      simp [padDigits_length]
    obtain ⟨h1, h2⟩ := List.append_inj h hlen
    have hm10 : m / 10 < 10 ^ w := by
      have : m < 10 ^ w * 10 := by
        have := hm; rw [Nat.pow_succ] at this; omega
      omega
    have hn10 : n / 10 < 10 ^ w := by
      have : n < 10 ^ w * 10 := by
        have := hn; rw [Nat.pow_succ] at this; omega
      omega
    have hdiv : m / 10 = n / 10 := ih (m / 10) hm10 (n / 10) hn10 h1
    have hmod : m % 10 = n % 10 := by
      have hc : digitChar m = digitChar n := by
        simpa using h2
      have e1 : digitChar (m % 10) = digitChar m := by
        unfold digitChar; congr 1; omega
      have e2 : digitChar (n % 10) = digitChar n := by
        unfold digitChar; congr 1; omega
      exact digitChar_inj (m % 10) (by omega) (n % 10) (by omega)
        (by rw [e1, e2]; exact hc)
    omega

/-- The timestamp-derived collection name determines the datetime's
calendar fields down to seconds: two valid datetimes formatted to the
same "%Y%m%d%H%M%S" string agree on every field but the microseconds. -/
theorem strftimeYmdHMS_inj (t1 t2 : PyDateTime) (h1 : t1.valid)
    (h2 : t2.valid) (h : strftimeYmdHMS t1 = strftimeYmdHMS t2) :
    t1.secondKey = t2.secondKey := by
  obtain ⟨hy1a, hy1b, hmo1a, hmo1b, hd1a, hd1b, hh1, hmi1, hs1, hu1⟩ := h1
  obtain ⟨hy2a, hy2b, hmo2a, hmo2b, hd2a, hd2b, hh2, hmi2, hs2, hu2⟩ := h2
  have hl : padDigits 4 t1.year ++ padDigits 2 t1.month ++ padDigits 2 t1.day
      ++ padDigits 2 t1.hour ++ padDigits 2 t1.minute ++ padDigits 2 t1.second
      = padDigits 4 t2.year ++ padDigits 2 t2.month ++ padDigits 2 t2.day
      ++ padDigits 2 t2.hour ++ padDigits 2 t2.minute ++ padDigits 2 t2.second := by
    have := h
    unfold strftimeYmdHMS at this
    injection this
  simp only [List.append_assoc] at hl
  obtain ⟨hy, hl⟩ := List.append_inj hl (by simp [padDigits_length])
  obtain ⟨hmo, hl⟩ := List.append_inj hl (by simp [padDigits_length])
  obtain ⟨hd, hl⟩ := List.append_inj hl (by simp [padDigits_length])
  obtain ⟨hh, hl⟩ := List.append_inj hl (by simp [padDigits_length])
  obtain ⟨hmi, hs⟩ := List.append_inj hl (by simp [padDigits_length])
  have ey : t1.year = t2.year :=
    padDigits_inj 4 t1.year (by omega) t2.year (by omega) hy
  have emo : t1.month = t2.month :=
    padDigits_inj 2 t1.month (by omega) t2.month (by omega) hmo
  have ed : t1.day = t2.day :=
    padDigits_inj 2 t1.day (by omega) t2.day (by omega) hd
  have eh : t1.hour = t2.hour :=
    padDigits_inj 2 t1.hour (by omega) t2.hour (by omega) hh
  have emi : t1.minute = t2.minute :=
    padDigits_inj 2 t1.minute (by omega) t2.minute (by omega) hmi
  have es : t1.second = t2.second :=
    padDigits_inj 2 t1.second (by omega) t2.second (by omega) hs
  simp [PyDateTime.secondKey, ey, emo, ed, eh, emi, es]

theorem length_filterMap_fileError (l : List (String × ImageOutcome)) :
    (l.filterMap fileError).length = l.countP (fun f => !fileSucceeds f) := by
  induction l with
  | nil => simp
  | cons f rest ih =>
    rcases f with ⟨name, out⟩
    cases out with
    | ok faces =>
      cases faces with
      | nil => simp [fileError, fileSucceeds, fileFaces, List.countP_cons, ih]
      | cons e es =>
        simp [fileError, fileSucceeds, fileFaces, List.countP_cons, ih]
    | err m => simp [fileError, fileSucceeds, fileFaces, List.countP_cons, ih]

/-! ### The claims -/

/-- C1: the claim says that after a successful ingestion run producing
collection `C`, `ConfigManager.get_collection_name(folder)` returns `C`.
On the code this fails: `process_folder` writes the mapping entry at the
top level of the config document (`config[folder_path] = collection_name`)
while `get_collection_name` reads the `"collections"` sub-dictionary, which
stays empty.  Concretely: the sample run succeeds with collection
"20240101120000", yet the lookup on the saved document answers `none`. -/
theorem claim_C1 :
    (process_folder sampleEnv defaultConfig emptyIndex).1 =
      PipelineResult.success "20240101120000" 1 0 1 0 ∧
    dictGet (process_folder sampleEnv defaultConfig emptyIndex).2.1
      "/photos" = some (ConfigValue.str "20240101120000") ∧
    get_collection_name
      (process_folder sampleEnv defaultConfig emptyIndex).2.1 "/photos" =
      none := by decide

/-- C2 (amended): `create_collection` normalizes an `UnexpectedResponse`
whose message contains "already exists" to the status string
"Collection already exists" instead of raising; but the ingestion pipeline
treats every creation status other than "Success" — the already-exists
status included — as an error and aborts before storage, leaving the
config unchanged and upserting nothing; a raising creation call aborts the
same way. -/
theorem claim_C2 :
    (∀ msg, strContains msg "already exists" = true →
      create_collection (CreateCallResult.unexpectedResponse msg) =
        Except.ok "Collection already exists") ∧
    (∀ (env : PipelineEnv) (cfg : Config) (idx : IndexState)
       (br : BatchResult) (status : String),
      process_image_folder env.folder = Except.ok br →
      create_collection env.createCall = Except.ok status →
      status ≠ "Success" →
      (process_folder env cfg idx).1 = PipelineResult.error status ∧
      (process_folder env cfg idx).2.1 = cfg ∧
      ((process_folder env cfg idx).2.2.1).records = idx.records ∧
      (process_folder env cfg idx).2.2.2.countP isUpsertEv = 0) ∧
    (∀ (env : PipelineEnv) (cfg : Config) (idx : IndexState)
       (br : BatchResult) (msg : String),
      process_image_folder env.folder = Except.ok br →
      create_collection env.createCall = Except.error msg →
      (process_folder env cfg idx).1 = PipelineResult.error msg ∧
      (process_folder env cfg idx).2.1 = cfg ∧
      ((process_folder env cfg idx).2.2.1).records = idx.records ∧
      (process_folder env cfg idx).2.2.2.countP isUpsertEv = 0) := by
  refine ⟨fun msg h => ?_, fun env cfg idx br status h1 h2 hs => ?_,
    fun env cfg idx br msg h1 h2 => ?_⟩
  · simp [create_collection, h]
  · have key : process_folder env cfg idx =
        (PipelineResult.error status, cfg,
         applyCreate idx (strftimeYmdHMS env.now) env.createCall,
         [Event.create (strftimeYmdHMS env.now) env.createCall]) := by
      unfold process_folder
      rw [h1, h2]
      simp [hs]
    rw [key]
    simp [applyCreate_records, isUpsertEv]
  · have key : process_folder env cfg idx =
        (PipelineResult.error msg, cfg,
         applyCreate idx (strftimeYmdHMS env.now) env.createCall,
         [Event.create (strftimeYmdHMS env.now) env.createCall]) := by
      unfold process_folder
      rw [h1, h2]
    rw [key]
    simp [applyCreate_records, isUpsertEv]

/-- C2, counterexample to the claim as stated: with the index service
reporting pre-existence, `create_collection` returns the normalized
already-exists status, yet the pipeline — run on a folder whose batch
holds an embedding that could be stored — returns an error and performs
no upsert: the pre-existence outcome is not treated as success and
ingestion does not proceed to storage. -/
theorem claim_C2_cex :
    create_collection alreadyExistsEnv.createCall =
      Except.ok "Collection already exists" ∧
    (process_folder alreadyExistsEnv defaultConfig emptyIndex).1 =
      PipelineResult.error "Collection already exists" ∧
    (process_folder alreadyExistsEnv defaultConfig emptyIndex).2.2.2.countP
      isUpsertEv = 0 := by decide

/-- C2, witness: the amended theorem applied at the concrete
already-exists run. -/
theorem claim_C2_witness :
    (process_folder alreadyExistsEnv defaultConfig emptyIndex).1 =
      PipelineResult.error "Collection already exists" ∧
    (process_folder alreadyExistsEnv defaultConfig emptyIndex).2.1 =
      defaultConfig ∧
    ((process_folder alreadyExistsEnv defaultConfig emptyIndex).2.2.1).records
      = emptyIndex.records ∧
    (process_folder alreadyExistsEnv defaultConfig emptyIndex).2.2.2.countP
      isUpsertEv = 0 :=
  claim_C2.2.1 alreadyExistsEnv defaultConfig emptyIndex
    ([("a.jpg", ImageOutcome.ok [[1]])].foldl stepFile batchInit)
    "Collection already exists" rfl (by decide) (by decide)

/-- C5: when the batch result holds zero embeddings (and collection setup
reported success), the pipeline stops with the error
"No embeddings generated", the persisted config document is unchanged (no
mapping entry created or updated), no record is written to the index, and
no upsert or mapping-update event occurs. -/
theorem claim_C5 (env : PipelineEnv) (cfg : Config) (idx : IndexState)
    (br : BatchResult)
    (h1 : process_image_folder env.folder = Except.ok br)
    (h2 : create_collection env.createCall = Except.ok "Success")
    (h3 : br.embeddings = []) :
    (process_folder env cfg idx).1 =
      PipelineResult.error "No embeddings generated" ∧
    (process_folder env cfg idx).2.1 = cfg ∧
    ((process_folder env cfg idx).2.2.1).records = idx.records ∧
    (process_folder env cfg idx).2.2.2.countP isUpsertEv = 0 ∧
    (process_folder env cfg idx).2.2.2.countP isMapUpdateEv = 0 := by
  have key : process_folder env cfg idx =
      (PipelineResult.error "No embeddings generated", cfg,
       applyCreate idx (strftimeYmdHMS env.now) env.createCall,
       [Event.create (strftimeYmdHMS env.now) env.createCall]) := by
    unfold process_folder
    rw [h1, h2]
    simp [h3]
  rw [key]
  simp [applyCreate_records, isUpsertEv, isMapUpdateEv]

/-- C5, witness: the zero-face run stops with "No embeddings generated"
and leaves config and index records untouched. -/
theorem claim_C5_witness :
    (process_folder zeroFaceEnv defaultConfig emptyIndex).1 =
      PipelineResult.error "No embeddings generated" ∧
    (process_folder zeroFaceEnv defaultConfig emptyIndex).2.1 =
      defaultConfig ∧
    ((process_folder zeroFaceEnv defaultConfig emptyIndex).2.2.1).records =
      emptyIndex.records ∧
    (process_folder zeroFaceEnv defaultConfig emptyIndex).2.2.2.countP
      isUpsertEv = 0 ∧
    (process_folder zeroFaceEnv defaultConfig emptyIndex).2.2.2.countP
      isMapUpdateEv = 0 :=
  claim_C5 zeroFaceEnv defaultConfig emptyIndex
    ([("a.jpg", ImageOutcome.ok [])].foldl stepFile batchInit)
    rfl rfl rfl

/-- C3: for an existing folder, every per-file failure (raising call or
zero faces) is appended to `errors` and counted in `stats.failed` without
aborting the remaining files, and `stats.processed` counts exactly the
files that yielded at least one embedding; for a folder of N valid
single-face images and M zero-face images the result has
`stats.processed = N`, `stats.failed = M`, and N embeddings with N
filenames. -/
theorem claim_C3 (files : List (String × ImageOutcome)) (r : BatchResult)
    (h : process_image_folder (some files) = Except.ok r) :
    (r.errors = (imageFiles files).filterMap fileError ∧
     r.errors.length = r.stats.failed ∧
     r.stats.failed =
       (imageFiles files).countP (fun f => (fileFaces f).isEmpty) ∧
     r.stats.processed = (imageFiles files).countP fileSucceeds) ∧
    ((∀ f ∈ imageFiles files,
        isOkFile f = true ∧ (fileFaces f).length ≤ 1) →
      r.stats.processed =
        (imageFiles files).countP (fun f => (fileFaces f).length == 1) ∧
      r.stats.failed =
        (imageFiles files).countP (fun f => (fileFaces f).isEmpty) ∧
      r.embeddings.length =
        (imageFiles files).countP (fun f => (fileFaces f).length == 1) ∧
      r.filenames.length =
        (imageFiles files).countP (fun f => (fileFaces f).length == 1)) := by
  have hr : r = files.foldl stepFile batchInit := by
    have := h
    unfold process_image_folder at this
    injection this with h2
    exact h2.symm
  subst hr
  rw [foldl_stepFile_eq]
  constructor
  · refine ⟨by simp [batchInit], ?_, ?_, by simp [batchInit]⟩
    · simp [batchInit, length_filterMap_fileError]
    · simp only [batchInit, Nat.zero_add]
      exact List.countP_congr (fun f _ => by simp [fileSucceeds])
  · intro hf
    have hproc :
        (imageFiles files).countP fileSucceeds =
          (imageFiles files).countP (fun f => (fileFaces f).length == 1) := by
      apply List.countP_congr
      intro f hfm
      obtain ⟨_, hle⟩ := hf f hfm
      cases hff : fileFaces f with
      | nil => simp [fileSucceeds, hff]
      | cons e es =>
        have hes : es.length = 0 := by
          rw [hff] at hle
          simp only [List.length_cons] at hle
          omega
        simp [fileSucceeds, hff, hes]
    refine ⟨by simp [batchInit, hproc], ?_, ?_, ?_⟩
    · simp only [batchInit, Nat.zero_add]
      exact List.countP_congr (fun f _ => by simp [fileSucceeds])
    · simp only [batchInit, List.nil_append]
      rw [flatMap_length_eq_countP (imageFiles files)
        (fun f hfm => (hf f hfm).2)]
    · simp only [batchInit, List.nil_append]
      rw [flatMap_replicate_length,
        flatMap_length_eq_countP (imageFiles files)
          (fun f hfm => (hf f hfm).2)]

/-- C3, witness: on the concrete listing `files1` (one single-face image,
one zero-face image, one skipped non-image file) the batch reports one
processed file, one failed file, one embedding and one filename. -/
theorem claim_C3_witness :
    (∀ f ∈ imageFiles files1,
       isOkFile f = true ∧ (fileFaces f).length ≤ 1) ∧
    ((files1.foldl stepFile batchInit).stats.processed =
       (imageFiles files1).countP (fun f => (fileFaces f).length == 1) ∧
     (files1.foldl stepFile batchInit).stats.failed =
       (imageFiles files1).countP (fun f => (fileFaces f).isEmpty) ∧
     (files1.foldl stepFile batchInit).embeddings.length =
       (imageFiles files1).countP (fun f => (fileFaces f).length == 1) ∧
     (files1.foldl stepFile batchInit).filenames.length =
       (imageFiles files1).countP (fun f => (fileFaces f).length == 1)) :=
  ⟨by decide, (claim_C3 files1 (files1.foldl stepFile batchInit) rfl).2
    (by decide)⟩

/-- C4: in every batch result the embeddings and filenames lists have
equal length and are index-aligned: zipping them yields exactly, file by
file in listing order, each detected face paired with its source
filename (the filename repeating once per face of that image). -/
theorem claim_C4 (files : List (String × ImageOutcome)) (r : BatchResult)
    (h : process_image_folder (some files) = Except.ok r) :
    r.filenames.length = r.embeddings.length ∧
    r.embeddings.zip r.filenames =
      (imageFiles files).flatMap
        (fun f => (fileFaces f).map (fun e => (e, f.1))) := by
  have hr : r = files.foldl stepFile batchInit := by
    have := h
    unfold process_image_folder at this
    injection this with h2
    exact h2.symm
  subst hr
  rw [foldl_stepFile_eq]
  constructor
  · simp only [batchInit, List.nil_append]
    exact flatMap_replicate_length (imageFiles files)
  · simp only [batchInit, List.nil_append]
    exact zip_flatMap_aligned (imageFiles files)

/-- C4, witness: on the concrete listing `filesMulti` (a single-face
image, a two-face image, a raising file, a skipped non-image file) the
zipped embeddings and filenames align face by face, with "c.jpeg"
repeated for its two faces. -/
theorem claim_C4_witness :
    (filesMulti.foldl stepFile batchInit).filenames.length =
      (filesMulti.foldl stepFile batchInit).embeddings.length ∧
    (filesMulti.foldl stepFile batchInit).embeddings.zip
      (filesMulti.foldl stepFile batchInit).filenames =
      (imageFiles filesMulti).flatMap
        (fun f => (fileFaces f).map (fun e => (e, f.1))) :=
  claim_C4 filesMulti (filesMulti.foldl stepFile batchInit) rfl

/-- Closed form of a fully successful `process_folder` run: batch ok,
creation status "Success", at least one embedding. -/
theorem process_folder_success (env : PipelineEnv) (cfg : Config)
    (idx : IndexState) (br : BatchResult)
    (h1 : process_image_folder env.folder = Except.ok br)
    (h2 : create_collection env.createCall = Except.ok "Success")
    (hne : br.embeddings ≠ []) :
    process_folder env cfg idx =
      (PipelineResult.success (strftimeYmdHMS env.now) br.stats.processed
         br.stats.failed
         (storeLoop (strftimeYmdHMS env.now) env.upsertOk 0
           (br.embeddings.zip br.filenames)).1.success_count
         (storeLoop (strftimeYmdHMS env.now) env.upsertOk 0
           (br.embeddings.zip br.filenames)).1.error_count,
       dictSet cfg env.folderPath (ConfigValue.str (strftimeYmdHMS env.now)),
       { collections :=
           (applyCreate idx (strftimeYmdHMS env.now) env.createCall).collections,
         records :=
           (applyCreate idx (strftimeYmdHMS env.now) env.createCall).records ++
             (storeLoop (strftimeYmdHMS env.now) env.upsertOk 0
               (br.embeddings.zip br.filenames)).2.1 },
       [Event.create (strftimeYmdHMS env.now) env.createCall] ++
         (storeLoop (strftimeYmdHMS env.now) env.upsertOk 0
           (br.embeddings.zip br.filenames)).2.2 ++
         [Event.mapUpdate env.folderPath (strftimeYmdHMS env.now)]) := by
  have hni : br.embeddings.isEmpty = false := by
    cases hbr : br.embeddings with
    | nil => exact absurd hbr hne
    | cons x xs => rfl
  unfold process_folder
  rw [h1, h2]
  simp [hni, store_embeddings]

/-- C6: in one ingestion run the embeddings are stored one upsert event
per `(embedding, filename)` pair, in batch order, every pair receiving its
store attempt whether or not earlier stores failed; the mapping update is
the single last event, occurring exactly once on the successful path; and
no mapping update happens when collection setup failed (non-"Success"
status or raise), when the batch failed outright, or when it produced no
embeddings. -/
theorem claim_C6 (env : PipelineEnv) (cfg : Config) (idx : IndexState) :
    (∀ br : BatchResult, process_image_folder env.folder = Except.ok br →
      create_collection env.createCall = Except.ok "Success" →
      br.embeddings ≠ [] →
      (process_folder env cfg idx).2.2.2 =
        [Event.create (strftimeYmdHMS env.now) env.createCall] ++
        (List.enumFrom 0 (br.embeddings.zip br.filenames)).map
          (fun p => Event.upsert (strftimeYmdHMS env.now) p.2.1 p.2.2
            (env.upsertOk p.1)) ++
        [Event.mapUpdate env.folderPath (strftimeYmdHMS env.now)] ∧
      (process_folder env cfg idx).2.2.2.countP isMapUpdateEv = 1) ∧
    (∀ (br : BatchResult) (status : String),
      process_image_folder env.folder = Except.ok br →
      create_collection env.createCall = Except.ok status →
      status ≠ "Success" →
      (process_folder env cfg idx).2.2.2.countP isMapUpdateEv = 0) ∧
    (∀ (br : BatchResult) (msg : String),
      process_image_folder env.folder = Except.ok br →
      create_collection env.createCall = Except.error msg →
      (process_folder env cfg idx).2.2.2.countP isMapUpdateEv = 0) ∧
    (∀ msg, process_image_folder env.folder = Except.error msg →
      (process_folder env cfg idx).2.2.2 = []) ∧
    (∀ br : BatchResult, process_image_folder env.folder = Except.ok br →
      create_collection env.createCall = Except.ok "Success" →
      br.embeddings = [] →
      (process_folder env cfg idx).2.2.2.countP isMapUpdateEv = 0) := by
  refine ⟨fun br h1 h2 hne => ?_, fun br status h1 h2 hs => ?_,
    fun br msg h1 h2 => ?_, fun msg h1 => ?_, fun br h1 h2 h3 => ?_⟩
  · rw [process_folder_success env cfg idx br h1 h2 hne]
    constructor
    · simp [storeLoop_events]
    · simp [List.countP_append, List.countP_map, storeLoop_events,
        isMapUpdateEv, List.countP_cons, Function.comp]
  · have key : process_folder env cfg idx =
        (PipelineResult.error status, cfg,
         applyCreate idx (strftimeYmdHMS env.now) env.createCall,
         [Event.create (strftimeYmdHMS env.now) env.createCall]) := by
      unfold process_folder
      rw [h1, h2]
      simp [hs]
    rw [key]
    simp [isMapUpdateEv]
  · have key : process_folder env cfg idx =
        (PipelineResult.error msg, cfg,
         applyCreate idx (strftimeYmdHMS env.now) env.createCall,
         [Event.create (strftimeYmdHMS env.now) env.createCall]) := by
      unfold process_folder
      rw [h1, h2]
    rw [key]
    simp [isMapUpdateEv]
  · have key : process_folder env cfg idx =
        (PipelineResult.error msg, cfg, idx, []) := by
      unfold process_folder
      rw [h1]
    rw [key]
  · have key : process_folder env cfg idx =
        (PipelineResult.error "No embeddings generated", cfg,
         applyCreate idx (strftimeYmdHMS env.now) env.createCall,
         [Event.create (strftimeYmdHMS env.now) env.createCall]) := by
      unfold process_folder
      rw [h1, h2]
      simp [h3]
    rw [key]
    simp [isMapUpdateEv]

/-- C6, witness: the one-image sample run emits the create event, one
upsert, then exactly one mapping update, in that order. -/
theorem claim_C6_witness :
    (process_folder sampleEnv defaultConfig emptyIndex).2.2.2 =
      [Event.create "20240101120000" CreateCallResult.success] ++
      [Event.upsert "20240101120000" [1] "a.jpg" true] ++
      [Event.mapUpdate "/photos" "20240101120000"] ∧
    (process_folder sampleEnv defaultConfig emptyIndex).2.2.2.countP
      isMapUpdateEv = 1 :=
  (claim_C6 sampleEnv defaultConfig emptyIndex).1
    ([("a.jpg", ImageOutcome.ok [[1]])].foldl stepFile batchInit) rfl rfl
    (by decide)

/-- C7 (amended): the collection identifier is the run's start time
formatted at second resolution, so two runs whose start instants differ in
their second-resolution calendar fields get different identifiers; on a
successful run the new identifier is bound to the folder's top-level
config entry, and collections created by earlier runs are never removed
from the index.  (Two runs within the same wall-clock second would get
the same identifier — see the counterexample.) -/
theorem claim_C7 :
    (∀ t1 t2 : PyDateTime, t1.valid → t2.valid →
      t1.secondKey ≠ t2.secondKey →
      strftimeYmdHMS t1 ≠ strftimeYmdHMS t2) ∧
    (∀ (env : PipelineEnv) (cfg : Config) (idx : IndexState)
       (br : BatchResult),
      process_image_folder env.folder = Except.ok br →
      create_collection env.createCall = Except.ok "Success" →
      br.embeddings ≠ [] →
      dictGet (process_folder env cfg idx).2.1 env.folderPath =
        some (ConfigValue.str (strftimeYmdHMS env.now)) ∧
      ∀ c ∈ idx.collections,
        c ∈ ((process_folder env cfg idx).2.2.1).collections) := by
  constructor
  · intro t1 t2 h1 h2 hne heq
    exact hne (strftimeYmdHMS_inj t1 t2 h1 h2 heq)
  · intro env cfg idx br h1 h2 hne
    rw [process_folder_success env cfg idx br h1 h2 hne]
    constructor
    · exact dictGet_dictSet cfg env.folderPath
        (ConfigValue.str (strftimeYmdHMS env.now))
    · intro c hc
      exact applyCreate_collections_mem idx (strftimeYmdHMS env.now)
        env.createCall c hc

/-- C7, counterexample to the claim as stated: two distinct run instants
within the same wall-clock second — the second one strictly later — yield
the same collection identifier, so a re-run is not guaranteed a fresh
identifier. -/
theorem claim_C7_cex :
    dt0 ≠ dtHalf ∧ dt0.valid ∧ dtHalf.valid ∧
    dt0.toMicro < dtHalf.toMicro ∧
    strftimeYmdHMS dt0 = strftimeYmdHMS dtHalf := by decide

/-- C7, witness: one second apart the identifiers differ, and the sample
run binds its identifier to the folder while the previously created
collection stays in the index. -/
theorem claim_C7_witness :
    strftimeYmdHMS dt0 ≠ strftimeYmdHMS dtSec ∧
    (dictGet (process_folder sampleEnv defaultConfig oneCollIndex).2.1
       "/photos" = some (ConfigValue.str "20240101120000") ∧
     ∀ c ∈ oneCollIndex.collections,
       c ∈ ((process_folder sampleEnv defaultConfig oneCollIndex).2.2.1).collections) :=
  ⟨claim_C7.1 dt0 dtSec (by decide) (by decide) (by decide),
   claim_C7.2 sampleEnv defaultConfig oneCollIndex
     ([("a.jpg", ImageOutcome.ok [[1]])].foldl stepFile batchInit)
     rfl rfl (by decide)⟩

/-- C8 (amended): `ConfigManager._load_config` returns the structured
default when no file exists and propagates the parse failure when the
file exists but cannot be parsed; `DatabaseManager.load_config`, by
contrast, never raises: it returns the empty document both when the file
is absent and when parsing fails (the parse failure is swallowed, not
surfaced). -/
theorem claim_C8 :
    ConfigManager_load_config FileState.absent = Except.ok defaultConfig ∧
    (∀ fs : FileState,
      (∃ e, ConfigManager_load_config fs = Except.error e) ↔
        fs = FileState.unparseable) ∧
    (∀ fs : FileState,
      ∃ cfg, DatabaseManager_load_config fs = Except.ok cfg) ∧
    DatabaseManager_load_config FileState.absent = Except.ok [] ∧
    DatabaseManager_load_config FileState.unparseable = Except.ok [] := by
  refine ⟨rfl, fun fs => ?_, fun fs => ?_, rfl, rfl⟩
  · cases fs with
    | absent => simp [ConfigManager_load_config]
    | unparseable => simp [ConfigManager_load_config]
    | parsed c => simp [ConfigManager_load_config]
  · cases fs with
    | absent => exact ⟨[], rfl⟩
    | unparseable => exact ⟨[], rfl⟩
    | parsed c => exact ⟨c, rfl⟩

/-- C8, counterexample to the claim as stated: with persisted data present
but unparseable, `DatabaseManager.load_config` does not raise a storage
error — it silently returns the empty default. -/
theorem claim_C8_cex :
    DatabaseManager_load_config FileState.unparseable = Except.ok [] ∧
    ¬∃ e, DatabaseManager_load_config FileState.unparseable =
      Except.error e := by
  constructor
  · rfl
  · rintro ⟨e, he⟩
    simp [DatabaseManager_load_config] at he

/-- C9 (amended): the search path forwards the requested result limit to
the nearest-neighbor query unchanged — no clamping to any maximum and no
rejection happens between the slider value and the index-service call. -/
theorem claim_C9 (env : SearchEnv) (selected : String) (idx : IndexState)
    (f : Embedding) (rest : List Embedding) (h : env.faces = f :: rest) :
    (searchButton env selected idx).2.2 =
      [Event.upsert selected f env.uploadedName (env.upsertOk 0),
       Event.searchQuery selected f env.limit] := by
  unfold searchButton
  rw [h]
  simp [store_embeddings, storeLoop_events, search_similar_faces,
    List.enumFrom]

/-- C9, counterexample to the claim as stated: a search with limit 500 —
far above the supposed maximum of 100 — reaches the nearest-neighbor
query with limit 500, unclamped. -/
theorem claim_C9_cex :
    (searchButton bigLimitSearchEnv "c" emptyIndex).2.2 =
      [Event.upsert "c" [1] "query.jpg" true,
       Event.searchQuery "c" [1] 500] ∧
    ¬(500 ≤ 100) := by decide

/-- C9, witness: the amended pass-through theorem at the concrete
limit-500 search. -/
theorem claim_C9_witness :
    (searchButton bigLimitSearchEnv "c" emptyIndex).2.2 =
      [Event.upsert "c" [1] "query.jpg" true,
       Event.searchQuery "c" [1] 500] :=
  claim_C9 bigLimitSearchEnv "c" emptyIndex [1] [] rfl

/-- C10: when the query image yields at least one face, the search handler
first upserts exactly one new record — the first face's embedding with the
uploaded file's name as payload — into the selected collection, and only
then runs the nearest-neighbor query; the searched collection has grown by
that one record, which is part of the candidate set the query ranges
over. -/
theorem claim_C10 (env : SearchEnv) (selected : String) (idx : IndexState)
    (f : Embedding) (rest : List Embedding) (h : env.faces = f :: rest)
    (hok : env.upsertOk 0 = true) :
    ((searchButton env selected idx).2.1).records =
      idx.records ++ [(selected, f, env.uploadedName)] ∧
    (searchButton env selected idx).2.2 =
      [Event.upsert selected f env.uploadedName true,
       Event.searchQuery selected f env.limit] ∧
    (selected, f, env.uploadedName) ∈
      candidates (searchButton env selected idx).2.1 selected := by
  unfold searchButton
  rw [h]
  refine ⟨?_, ?_, ?_⟩
  · simp [store_embeddings, storeLoop, hok]
  · simp [store_embeddings, storeLoop, hok, search_similar_faces,
      storeLoop_events, List.enumFrom]
  · simp [store_embeddings, storeLoop, hok, candidates, List.mem_filter]

/-- C10, witness: the concrete one-face search on a collection holding one
prior record appends exactly the query record, emits upsert-then-search,
and the query record is among the candidates searched. -/
theorem claim_C10_witness :
    ((searchButton searchEnv1 "c" preIndex).2.1).records =
      preIndex.records ++ [("c", [5], "q.jpg")] ∧
    (searchButton searchEnv1 "c" preIndex).2.2 =
      [Event.upsert "c" [5] "q.jpg" true, Event.searchQuery "c" [5] 3] ∧
    ("c", [5], "q.jpg") ∈
      candidates (searchButton searchEnv1 "c" preIndex).2.1 "c" :=
  claim_C10 searchEnv1 "c" preIndex [5] [] rfl rfl
